import Mathlib

/-
Verification of the lang-gen DSL-generation pipeline (src/index.js) against its
natural-language specification.

This file is a shallow embedding of the claim-relevant parts of the program:

  * the content-addressed cache layer (getCacheKey / getCached / saveCache and the
    READ_FROM_CACHE / WRITE_TO_CACHE environment flags, index.js lines 33-80);
  * the grammar-synthesis retry loop with its local validator
    (generateGrammar, lines 211-377), with the external synthesis service
    modelled as an oracle mapping the attempt number to either a stream error
    or the accumulated streamed text;
  * the grammar-compilation retry loop and its post-processing rewrite of the
    produced parser artifact (compileGrammar, lines 380-519);
  * schema extraction (extractASTSchema, lines 522-542);
  * the interpreter-regeneration request builders
    (regenerateInterpreterWithUserFix, lines 816-947, and
    regenerateInterpreterWithFix, lines 949-1070);
  * the module-reload behavior of the test-and-repair loop
    (testGeneratedCode, lines 635-799), with the require/import caches made
    explicit;
  * the operator prompt dispatch of testGeneratedCode (lines 686-797)
    together with promptUser (lines 802-814).

JavaScript strings are modelled as Lean String / List Char.  The JS regexes of
the validator and of the parser post-processing step are implemented
character-by-character with the exact backtracking semantics of the source
patterns; scanners carry an explicit fuel argument (always instantiated with
the length of the scanned text, which bounds the number of scan positions) so
that every definition reduces by evaluation.

SHA-256 appears only inside getCacheKey.  It is deterministic, so the cache key
is a function of the hashed byte string `type ++ JSON.stringify(input)`; we
idealize collision resistance by representing the key by that byte string
itself.  Under this idealization, key equality holds exactly when the hashed
serializations agree, which is the level at which the hash-related claims are
stated.
-/

set_option maxRecDepth 20000

/-- The single-quote character, written via its code point. -/
def squote : Char := Char.ofNat 39

/-- The single-quote character as a one-character string. -/
def sqStr : String := String.mk [squote]

/-- The closing-brace character, written via its code point. -/
def rbraceChar : Char := Char.ofNat 125

/-- ASCII whitespace, the fragment of the JS `\s` class (and of the characters
removed by `String.prototype.trim`) that can occur in the texts this
development manipulates. -/
def isJsSpace (c : Char) : Bool :=
  c = ' ' || c = '\t' || c = '\n' || c = '\r' || c.val = 11 || c.val = 12

/-- Drop the longest prefix of characters satisfying `p`. -/
def dropW (p : Char → Bool) : List Char → List Char
  | [] => []
  | c :: cs => if p c then dropW p cs else c :: cs

/-- Split into the longest prefix satisfying `p` and the remainder. -/
def spanW (p : Char → Bool) : List Char → List Char × List Char
  | [] => ([], [])
  | c :: cs =>
    if p c then
      let r := spanW p cs
      (c :: r.1, r.2)
    else ([], c :: cs)

/-- JS `String.prototype.trim`: strip whitespace from both ends. -/
def jsTrim (s : String) : String :=
  String.mk (((dropW isJsSpace s.data).reverse |> dropW isJsSpace).reverse)

/-- Does `pat` occur as a prefix of `l`? -/
def startsWithCh : List Char → List Char → Bool
  | [], _ => true
  | _ :: _, [] => false
  | a :: as, b :: bs => a = b && startsWithCh as bs

/-- Does `pat` occur anywhere inside `l`? -/
def occursInCh (pat : List Char) : List Char → Bool
  | [] => startsWithCh pat []
  | c :: cs => startsWithCh pat (c :: cs) || occursInCh pat cs

/-- Substring occurrence on strings. -/
def occursIn (pat s : String) : Bool :=
  occursInCh pat.data s.data

/-- JS `Array.prototype.join` with separator `sep`. -/
def joinWith (sep : String) : List String → String
  | [] => ""
  | [x] => x
  | x :: xs => x ++ sep ++ joinWith sep xs

/-- Split a character list at the first occurrence of `q`: the characters
before it and the characters after it. -/
def splitAtFirst (q : Char) : List Char → Option (List Char × List Char)
  | [] => none
  | c :: cs =>
    if c = q then some ([], cs)
    else (splitAtFirst q cs).map fun p => (c :: p.1, p.2)

/-- Split a character list at the last occurrence of `q`. -/
def splitAtLast (q : Char) : List Char → Option (List Char × List Char)
  | [] => none
  | c :: cs =>
    match splitAtLast q cs with
    | some p => some (c :: p.1, p.2)
    | none => if c = q then some ([], cs) else none

/- ---------------------------------------------------------------------------
Cache layer (index.js lines 33-80).

Stage inputs are the object literals passed to getCached / saveCache:
`{ spec }`, `{ spec, grammarText, semantics }` and
`{ grammarText, schema, semantics }` where `schema` is itself an object of
string arrays.  `JSON.stringify` serializes object fields in insertion order,
so the input model keeps fields as ordered lists.
--------------------------------------------------------------------------- -/

/-- Atomic JSON values occurring in cache inputs: strings and string arrays. -/
inductive JAtom where
  | str (s : String)
  | strArr (xs : List String)
deriving DecidableEq

/-- A cache-input field value: an atom, or a nested object of atoms (the
`schema` field of the interpreter stage input). -/
inductive JField where
  | atom (a : JAtom)
  | obj (fs : List (String × JAtom))
deriving DecidableEq

/-- A cache input: a JSON object, fields in insertion order. -/
def CacheInput := List (String × JField)

instance : DecidableEq CacheInput := by
  unfold CacheInput
  infer_instance

/-- JSON string escaping for the characters that can occur in the values this
development serializes (quote, backslash, and the common control characters).
-/
def jsonEscChar (c : Char) : List Char :=
  if c = '"' ∨ c = '\\' then ['\\', c]
  else if c = '\n' then ['\\', 'n']
  else if c = '\t' then ['\\', 't']
  else if c = '\r' then ['\\', 'r']
  else [c]

/-- Escape a string for inclusion in a JSON document. -/
def jsonEscape (s : String) : String :=
  String.mk (s.data.foldr (fun c acc => jsonEscChar c ++ acc) [])

/-- Serialize a JSON string: `"..."` with escaping. -/
def jsonStr (s : String) : String :=
  "\"" ++ jsonEscape s ++ "\""

/-- Serialize an atomic value the way `JSON.stringify` does (no spaces). -/
def serializeAtom : JAtom → String
  | .str s => jsonStr s
  | .strArr xs => "[" ++ joinWith "," (xs.map jsonStr) ++ "]"

/-- Serialize a field value. -/
def serializeField : JField → String
  | .atom a => serializeAtom a
  | .obj fs =>
      "\x7b" ++ joinWith "," (fs.map fun p => jsonStr p.1 ++ ":" ++ serializeAtom p.2) ++ "\x7d"

/-- Serialize a cache input object the way `JSON.stringify` does: fields in
insertion order, no spaces. -/
def serializeInput (inp : CacheInput) : String :=
  "\x7b" ++ joinWith "," (inp.map fun p => jsonStr p.1 ++ ":" ++ serializeField p.2) ++ "\x7d"

/-- getCacheKey (index.js lines 39-44): sha256 over `type` followed by
`JSON.stringify(input)`.  The digest is represented by the hashed byte string
itself (collision-resistance idealization, see the file header). -/
def getCacheKey (type : String) (input : CacheInput) : String :=
  type ++ serializeInput input

/-- The on-disk cache: entries keyed by `(stage type, cache key)`, holding the
stage output (the `output` field of the JSON file written by saveCache;
`input` and `timestamp` are never read back by the program and are omitted). -/
def CacheState := List ((String × String) × String)

/-- Look up a cache entry (most recent write wins, like file overwrite). -/
def cacheLookup (st : CacheState) (k : String × String) : Option String :=
  match st with
  | [] => none
  | e :: rest => if e.1 = k then some e.2 else cacheLookup rest k

/-- Write a cache entry (file overwrite is modelled by shadowing). -/
def cachePut (st : CacheState) (k : String × String) (out : String) : CacheState :=
  (k, out) :: st

/-- READ_FROM_CACHE (index.js line 34): `process.env.LANG_GEN_READ_CACHE === 'true'`.
The source comment says "Default true" but the comparison makes the flag false
whenever the variable is unset. -/
def envReadFlag (e : Option String) : Bool :=
  e = some "true"

/-- WRITE_TO_CACHE (index.js line 35): `process.env.LANG_GEN_WRITE_CACHE !== 'false'`. -/
def envWriteFlag (e : Option String) : Bool :=
  ¬ e = some "false"

/-- The process-wide configuration a pipeline run sees: the two cache flags and
GLOBAL_SAMPLE (index.js lines 31-35). -/
structure CacheCfg where
  readCache : Bool
  writeCache : Bool
  sample : String
deriving DecidableEq

/-- getCached (index.js lines 46-60): `null` unless READ_FROM_CACHE is set;
any read error is also `null` (modelled by the pure lookup). -/
def getCached (cfg : CacheCfg) (st : CacheState) (type : String) (input : CacheInput) :
    Option String :=
  if cfg.readCache then cacheLookup st (type, getCacheKey type input) else none

/-- saveCache (index.js lines 62-80): a no-op unless WRITE_TO_CACHE is set;
write errors are swallowed (the pure model cannot fail). -/
def saveCache (cfg : CacheCfg) (st : CacheState) (type : String) (input : CacheInput)
    (out : String) : CacheState :=
  if cfg.writeCache then cachePut st (type, getCacheKey type input) out else st

/-- Does any cache entry hold the empty string as its output? -/
def cacheHasEmptyOut : CacheState → Bool
  | [] => false
  | e :: rest => e.2 = "" || cacheHasEmptyOut rest

/- ---------------------------------------------------------------------------
Local grammar validation (index.js lines 330-361).

singleQuotePattern = /(?<![/])('[^']*')/g : a single-quoted run whose opening
quote is not immediately preceded by a slash.  Because `[^']*` cannot cross a
quote, a candidate at an opening quote matches exactly when some later quote
exists, closing at the first one; after a match the scan resumes after the
closing quote (which then serves as the lookbehind character).

mismatchedQuotes = /"[^"]*'(?![^"]*")|'[^']*"(?![^']*')/g : alternative one
matches at a double quote exactly when a single quote occurs later and no
double quote occurs anywhere later (the greedy run then backtracks to the last
single quote); alternative two is the mirror image.
--------------------------------------------------------------------------- -/

/-- Scanner for singleQuotePattern.  `prev` is the character before the scan
position (for the `(?<![/])` lookbehind); `fuel` bounds the number of scan
positions and is always instantiated with the text length. -/
def sqScanF : Nat → Option Char → List Char → List String
  | 0, _, _ => []
  | _ + 1, _, [] => []
  | fuel + 1, prev, c :: cs =>
    if c = squote ∧ ¬ prev = some '/' then
      match splitAtFirst squote cs with
      | some p => String.mk (squote :: p.1 ++ [squote]) :: sqScanF fuel (some squote) p.2
      | none => sqScanF fuel (some c) cs
    else sqScanF fuel (some c) cs

/-- All matches of singleQuotePattern in scan order (index.js line 339). -/
def singleQuoteMatches (g : String) : List String :=
  sqScanF g.data.length none g.data

/-- Scanner for mismatchedQuotes; `fuel` as in `sqScanF`. -/
def mmScanF : Nat → List Char → List String
  | 0, _ => []
  | _ + 1, [] => []
  | fuel + 1, c :: cs =>
    if c = '"' ∧ cs.contains squote ∧ ¬ cs.contains '"' then
      match splitAtLast squote cs with
      | some p => String.mk ('"' :: p.1 ++ [squote]) :: mmScanF fuel p.2
      | none => mmScanF fuel cs
    else if c = squote ∧ cs.contains '"' ∧ ¬ cs.contains squote then
      match splitAtLast '"' cs with
      | some p => String.mk (squote :: p.1 ++ ['"']) :: mmScanF fuel p.2
      | none => mmScanF fuel cs
    else mmScanF fuel cs

/-- All matches of mismatchedQuotes in scan order (index.js line 346). -/
def mismatchedMatches (g : String) : List String :=
  mmScanF g.data.length g.data

/-- The single-quote error message (index.js line 342). -/
def sqErrMsg (ms : List String) : String :=
  "Found single quotes in grammar: " ++ joinWith ", " (ms.take 3) ++
    (if ms.length > 3 then "..." else "") ++ ". Use double quotes instead."

/-- The mismatched-quote error message (index.js line 349). -/
def mmErrMsg (ms : List String) : String :=
  "Found mismatched quotes: " ++ joinWith ", " (ms.take 3)

/-- The `syntaxErrors` array accumulated by an attempt (index.js lines 336-350). -/
def grammarSyntaxErrors (g : String) : List String :=
  (match singleQuoteMatches g with
   | [] => []
   | ms => [sqErrMsg ms]) ++
  (match mismatchedMatches g with
   | [] => []
   | ms => [mmErrMsg ms])

/-- The validation an attempt applies to its accumulated streamed text
(index.js lines 331-361): trim; empty text is the error
"Generated grammar is empty"; otherwise any syntax error aborts the attempt
with the combined message, and a clean text is accepted (and is what the
attempt returns and caches). -/
def validateGrammarText (raw : String) : Except String String :=
  let g := jsTrim raw
  if g = "" then .error "Generated grammar is empty"
  else
    match grammarSyntaxErrors g with
    | [] => .ok g
    | errs => .error ("Grammar syntax errors: " ++ joinWith "; " errs)

/- ---------------------------------------------------------------------------
Grammar-synthesis instruction payload (index.js lines 231-277).

The fixed base template is transcribed verbatim; GLOBAL_SAMPLE and the
accumulated previous errors are appended exactly as in the source.
--------------------------------------------------------------------------- -/

/-- The fixed part of the grammar-synthesis instructions (index.js lines
231-263), transcribed verbatim (single quotes written via `sqStr`). -/
def grammarBaseInstructions : String :=
  "\nYou are a CFG designer.\n\nTask: Output EXACTLY ONE Lark grammar that defines a context-free grammar for the language described in the input.\nThe output MUST conform to a strict subset of Lark (validator provided via tool):\n- Only: rules/tokens, groups (), optionals [], repetitions \x7b\x7d, postfix + ? * and bounded repeats ~min..max.\n- Only \"%import common.*\" and \"%ignore\".\n- NO %declare, NO templates, NO terminal priorities.\n- Regex terminals must avoid lookaround and lazy quantifiers; flags like i,m,s,l,u,x are fine.\n\nFormatting requirements:\n- Output ONLY the grammar text (no code fences, no prose).\n- Provide a single entry rule named \"start\".\n- Use lowercase names for rules, UPPERCASE for tokens.\n- Include \"%import common.WS\" and \"%ignore WS\" unless whitespace is significant.\n- Prefer using aliases \"-> name\" on meaningful alternatives to guide AST shape.\n\nCRITICAL for operator handling:\n- Define operators as separate UPPERCASE tokens (e.g., ADD_OP: \"+\", MUL_OP: \"*\")\n- DO NOT use inline literals like (\"+\" | \"-\") in rules - these get discarded by the parser\n- Example: Instead of: sum: product ((\"+\" | \"-\") product)*\n           Use: sum: product (ADD_OP product | SUB_OP product)*\n                ADD_OP: \"+\"\n                SUB_OP: \"-\"\n- This ensures operators are preserved in the AST for the interpreter to handle\n\nIf the spec is underspecified, choose a reasonable minimal design rather than asking questions.\n\nCRITICAL SYNTAX RULES:\n- ALL string literals MUST use double quotes: \"string\" (NOT " ++ sqStr ++ "string" ++ sqStr ++ ")\n- Quotes must be properly matched: \"^\" not \"^" ++ sqStr ++ "\n- Use standard operators: \"-\" for negation (not \"_\")\n- In patterns like (expr \",\" expr)*, use double quotes for the comma"

/-- The GLOBAL_SAMPLE section appended when a sample was supplied (index.js
lines 266-268). -/
def sampleSection (gs : String) : String :=
  if gs = "" then ""
  else
    "\n\nEXAMPLE PROGRAM TO SUPPORT:\nThe grammar must be able to parse this example:\n" ++
      gs ++ "\nMake sure your grammar handles all the constructs shown in this example."

/-- The `Attempt ${i + 1}: ${err}\n` lines produced by the forEach at index.js
line 273-275, starting at attempt number `i`. -/
def attemptLines : Nat → List String → String
  | _, [] => ""
  | i, e :: es => "Attempt " ++ toString i ++ ": " ++ e ++ "\n" ++ attemptLines (i + 1) es

/-- The previous-errors section appended on retries (index.js lines 271-277). -/
def prevErrorsSection (es : List String) : String :=
  if es = [] then ""
  else
    "\n\nPREVIOUS ATTEMPTS FAILED WITH THESE ERRORS:\n" ++ attemptLines 1 es ++
      "\nPlease fix these specific issues in your grammar."

/-- The full instruction payload an attempt sends to the synthesis service,
as a function of GLOBAL_SAMPLE and the accumulated previous errors. -/
def grammarInstructions (gs : String) (prevErrors : List String) : String :=
  grammarBaseInstructions ++ sampleSection gs ++ prevErrorsSection prevErrors

/- ---------------------------------------------------------------------------
generateGrammar (index.js lines 211-377).

The external synthesis service is an oracle from the attempt number to either
a mid-stream error (`event.error`, thrown at line 305) or the accumulated
streamed text.  Each loop iteration makes exactly one `client.responses.create`
call, so the number of service invocations is the number of executed attempts.
--------------------------------------------------------------------------- -/

/-- What one attempt yields once the stream has been drained and local
validation applied (index.js lines 301-361). -/
def attemptOutcome : Except String String → Except String String
  | .error m => .error m
  | .ok raw => validateGrammarText raw

/-- The error message an attempt records (`previousErrors.push(error.message)`,
index.js line 364); `""` for a successful attempt (never pushed). -/
def attemptErrMsg (o : Except String String) : String :=
  match attemptOutcome o with
  | .error m => m
  | .ok _ => ""

/-- The exhaustion error thrown at index.js line 368. -/
def mkFinalFailMsg (maxRetries : Nat) (lastMsg : String) : String :=
  "Failed to generate valid grammar after " ++ toString maxRetries ++
    " attempts. Last error: " ++ lastMsg

/-- Decidable equality for the `Except String String` results this
development computes with. -/
instance : DecidableEq (Except String String) := fun a b =>
  match a, b with
  | .ok x, .ok y => if h : x = y then .isTrue (by rw [h]) else .isFalse (by simp [h])
  | .error x, .error y => if h : x = y then .isTrue (by rw [h]) else .isFalse (by simp [h])
  | .ok _, .error _ => .isFalse (by simp)
  | .error _, .ok _ => .isFalse (by simp)

/-- Trace of one executed attempt: the `previousErrors` it saw, the
instruction payload it sent, and its outcome. -/
structure GenAttempt where
  prevErrors : List String
  instructions : String
  outcome : Except String String
deriving DecidableEq

/-- Result of a generateGrammar call: the attempts executed (each of which
invoked the synthesis service once), the returned value or thrown error, the
cache after the call, and whether the call was answered from the cache. -/
structure GenOutcome where
  attempts : List GenAttempt
  result : Except String String
  cacheAfter : CacheState
  cacheHit : Bool

/-- The cache input of the grammar stage: `{ spec }` (index.js line 213). -/
def grammarInput (spec : String) : CacheInput :=
  [("spec", .atom (.str spec))]

/-- The retry loop of generateGrammar (index.js lines 222-376).  `k` is the
attempt number about to run, `remaining` the number of loop iterations left
(`maxRetries - attempts`), `prev` the accumulated `previousErrors`.  On
success the result is cached (line 357) and returned; on failure with
attempts ≥ maxRetries the exhaustion error is thrown (line 368); the
post-loop throw (line 376) is reachable only when maxRetries ≤ 0. -/
def runAttempts (cfg : CacheCfg) (oracle : Nat → Except String String) (spec : String)
    (maxRetries : Nat) :
    Nat → Nat → List String → CacheState → List GenAttempt × Except String String × CacheState
  | _, 0, _, st => ([], .error "Failed to generate grammar: max retries exceeded", st)
  | k, r + 1, prev, st =>
    let res := attemptOutcome (oracle k)
    let tr : GenAttempt := ⟨prev, grammarInstructions cfg.sample prev, res⟩
    match res with
    | .ok g => ([tr], .ok g, saveCache cfg st "grammar" (grammarInput spec) g)
    | .error m =>
      if r = 0 then ([tr], .error (mkFinalFailMsg maxRetries m), st)
      else
        let rest := runAttempts cfg oracle spec maxRetries (k + 1) r (prev ++ [m]) st
        (tr :: rest.1, rest.2.1, rest.2.2)

/-- generateGrammar (index.js lines 211-377): answer from the cache when
possible, otherwise run the retry loop. -/
def generateGrammar (cfg : CacheCfg) (st : CacheState) (oracle : Nat → Except String String)
    (spec : String) (maxRetries : Nat) : GenOutcome :=
  match getCached cfg st "grammar" (grammarInput spec) with
  | some out => ⟨[], .ok out, st, true⟩
  | none =>
    let r := runAttempts cfg oracle spec maxRetries 1 maxRetries [] st
    ⟨r.1, r.2.1, r.2.2, false⟩

/-- Is an `Except String String` an error? -/
def isErrE : Except String String → Bool
  | .error _ => true
  | .ok _ => false

/-- The message of an `Except String String` error (`""` for `.ok`). -/
def errMsgOf : Except String String → String
  | .error m => m
  | .ok _ => ""

/- ---------------------------------------------------------------------------
compileGrammar (index.js lines 380-519).

The lark-js subprocess is an oracle from the attempt number to its result:
exit status zero together with the parser file it produced, a non-zero exit
with captured error output, or a launch failure.  On a zero exit the produced
parser text is rewritten by replacing the generated `get_parser` function with
a version that deletes the unsupported `strict` and `ordered_sets` options
(lines 441-470) before compileGrammar resolves.
--------------------------------------------------------------------------- -/

/-- One subprocess run (index.js lines 424-488). -/
inductive SpawnResult where
  | success (parserContent : String)
  | failure (code : Int) (errOutput : String)
  | launchError (msg : String)

/-- The error message carried by a failed attempt (index.js lines 474, 481-486). -/
def spawnErrMsg : SpawnResult → String
  | .success _ => ""
  | .failure code _ => "lark-js exited with code " ++ toString code
  | .launchError m => m

/-- The literal prefix of the getParserRegex pattern (index.js line 446). -/
def getParserPatA : String :=
  "function get_parser(options = \x7b\x7d) \x7b"

/-- The middle literal of the getParserRegex pattern (index.js line 446). -/
def getParserPatB : String :=
  "return Lark._load_from_dict(\x7b data: DATA, memo: MEMO, ...options \x7d);"

/-- The replacement text `newGetParser` (index.js lines 447-463), transcribed
verbatim. -/
def fixedGetParserText : String :=
  "function get_parser(options = \x7b\x7d) \x7b\n  if (\n    options.transformer &&\n    options.transformer.constructor.name === \"object\"\n  ) \x7b\n    options.transformer = Transformer.fromObj(options.transformer);\n  \x7d\n\n  // Filter out unsupported options from DATA\n  const filteredData = JSON.parse(JSON.stringify(DATA));\n  if (filteredData.options) \x7b\n    delete filteredData.options.strict;\n    delete filteredData.options.ordered_sets;\n  \x7d\n\n  return Lark._load_from_dict(\x7b data: filteredData, memo: MEMO, ...options \x7d);\n\x7d"

/-- Suffix after the first occurrence of `pat` in `l` (none when `pat` does
not occur); `fuel` bounds the scan positions. -/
def findAfterF : Nat → List Char → List Char → Option (List Char)
  | 0, pat, l => if startsWithCh pat l then some (List.drop pat.length l) else none
  | fuel + 1, pat, l =>
    if startsWithCh pat l then some (List.drop pat.length l)
    else
      match l with
      | [] => none
      | _ :: cs => findAfterF fuel pat cs

/-- Attempt to match the getParserRegex starting exactly at `l`: literal
prefix, lazily the middle literal, lazily a closing brace.  Returns the
remainder after the match. -/
def matchGetParserAt (l : List Char) : Option (List Char) :=
  if startsWithCh getParserPatA.data l then
    match findAfterF l.length getParserPatB.data (List.drop getParserPatA.data.length l) with
    | some afterB =>
      match splitAtFirst rbraceChar afterB with
      | some p => some p.2
      | none => none
    | none => none
  else none

/-- Leftmost match of the getParserRegex: the characters before the match and
the characters after it; `fuel` bounds the scan positions. -/
def matchGetParserFromF : Nat → List Char → Option (List Char × List Char)
  | 0, _ => none
  | fuel + 1, l =>
    match matchGetParserAt l with
    | some post => some ([], post)
    | none =>
      match l with
      | [] => none
      | c :: cs => (matchGetParserFromF fuel cs).map fun p => (c :: p.1, p.2)

/-- `parserContent.replace(getParserRegex, newGetParser)` (index.js line 465):
replace the first match, or return the content unchanged when the pattern does
not occur. -/
def replaceGetParser (s : String) : String :=
  match matchGetParserFromF s.data.length s.data with
  | some p => String.mk p.1 ++ fixedGetParserText ++ String.mk p.2
  | none => s

/-- A successful compile: the parser artifact text on disk when compileGrammar
returns. -/
structure CompileOk where
  parserContent : String
deriving DecidableEq

/-- A failed compile: the exhaustion message and the offending grammar text
carried on the thrown error (index.js lines 515-518). -/
structure CompileError where
  message : String
  grammarText : String
deriving DecidableEq

/-- The retry loop of compileGrammar (index.js lines 416-512): on exit status
zero the produced parser text is rewritten by `replaceGetParser` and the call
resolves; otherwise the attempt's error message is recorded and the loop
retries, throwing the exhaustion error once maxRetries attempts failed. -/
def compileAttempts (oracle : Nat → SpawnResult) (grammarText : String) (maxRetries : Nat) :
    Nat → Nat → String → Except CompileError CompileOk
  | _, 0, lastMsg =>
    .error ⟨"Grammar compilation failed after " ++ toString maxRetries ++
      " attempts. Last error: " ++ lastMsg, grammarText⟩
  | k, r + 1, _ =>
    match oracle k with
    | .success content => .ok ⟨replaceGetParser content⟩
    | res => compileAttempts oracle grammarText maxRetries (k + 1) r (spawnErrMsg res)

/-- compileGrammar (index.js lines 380-519). -/
def compileGrammar (oracle : Nat → SpawnResult) (grammarText : String) (maxRetries : Nat) :
    Except CompileError CompileOk :=
  compileAttempts oracle grammarText maxRetries 1 maxRetries ""

/-- The parser text produced by the first zero-exit attempt among the next `r`
attempts starting at attempt `k`. -/
def firstZeroContent (oracle : Nat → SpawnResult) : Nat → Nat → Option String
  | _, 0 => none
  | k, r + 1 =>
    match oracle k with
    | .success content => some content
    | .failure _ _ => firstZeroContent oracle (k + 1) r
    | .launchError _ => firstZeroContent oracle (k + 1) r

/- ---------------------------------------------------------------------------
extractASTSchema (index.js lines 522-542).

ruleRe  = /^([a-z_][a-z0-9_]*)\s*:/gm
tokenRe = /^([A-Z_][A-Z0-9_]*)\s*:/gm
aliasRe matches "->" then \s* then a captured [a-z_][a-z0-9_]* identifier

The two line-anchored regexes match a maximal identifier at a line start
followed by optional whitespace and a colon; the alias regex matches anywhere.
Matched names are collected into Sets (first occurrence kept) and returned as
arrays in insertion order.
--------------------------------------------------------------------------- -/

/-- JS `[a-z_]`. -/
def lowerStart (c : Char) : Bool := ('a' ≤ c ∧ c ≤ 'z') ∨ c = '_'

/-- JS `[a-z0-9_]`. -/
def lowerCont (c : Char) : Bool := ('a' ≤ c ∧ c ≤ 'z') ∨ ('0' ≤ c ∧ c ≤ '9') ∨ c = '_'

/-- JS `[A-Z_]`. -/
def upperStart (c : Char) : Bool := ('A' ≤ c ∧ c ≤ 'Z') ∨ c = '_'

/-- JS `[A-Z0-9_]`. -/
def upperCont (c : Char) : Bool := ('A' ≤ c ∧ c ≤ 'Z') ∨ ('0' ≤ c ∧ c ≤ '9') ∨ c = '_'

/-- Try to match `identifier \s* :` at the head of `l`; on success return the
identifier and the remainder after the colon. -/
def matchRuleAt (startP contP : Char → Bool) (l : List Char) : Option (String × List Char) :=
  match l with
  | [] => none
  | c :: cs =>
    if startP c then
      let p := spanW contP cs
      match dropW isJsSpace p.2 with
      | ':' :: rest => some (String.mk (c :: p.1), rest)
      | _ => none
    else none

/-- Global scan for a line-anchored `name \s* :` regex.  `atStart` tracks
whether the scan position is at the start of a line; after a match the scan
resumes after the colon; `fuel` bounds the scan positions. -/
def scanLineRulesF (startP contP : Char → Bool) : Nat → Bool → List Char → List String
  | 0, _, _ => []
  | _ + 1, _, [] => []
  | fuel + 1, atStart, c :: cs =>
    if atStart then
      match matchRuleAt startP contP (c :: cs) with
      | some p => p.1 :: scanLineRulesF startP contP fuel false p.2
      | none => scanLineRulesF startP contP fuel (c = '\n') cs
    else scanLineRulesF startP contP fuel (c = '\n') cs

/-- Global scan for `->\s*([a-z_][a-z0-9_]*)`; on a failed candidate the scan
advances one character, exactly like the JS engine; `fuel` bounds the scan
positions. -/
def scanAliasesF : Nat → List Char → List String
  | 0, _ => []
  | _ + 1, [] => []
  | fuel + 1, c :: cs =>
    if c = '-' then
      match cs with
      | c2 :: cs2 =>
        if c2 = '>' then
          match dropW isJsSpace cs2 with
          | c3 :: cs3 =>
            if lowerStart c3 then
              let p := spanW lowerCont cs3
              String.mk (c3 :: p.1) :: scanAliasesF fuel p.2
            else scanAliasesF fuel cs
          | [] => scanAliasesF fuel cs
        else scanAliasesF fuel cs
      | [] => []
    else scanAliasesF fuel cs

/-- Insert unless already present (JS `Set.prototype.add`). -/
def addUnique (l : List String) (x : String) : List String :=
  if l.contains x then l else l ++ [x]

/-- Collapse duplicates keeping first occurrences (`Array.from(new Set(...))`). -/
def dedupKeepFirst (l : List String) : List String :=
  l.foldl addUnique []

/-- The derived AST schema (index.js lines 536-541). -/
structure Schema where
  rules : List String
  tokens : List String
  aliases : List String
  nodeTypes : List String
deriving DecidableEq

/-- extractASTSchema (index.js lines 522-542): a pure, total function of the
grammar text. -/
def extractASTSchema (g : String) : Schema :=
  let rules := dedupKeepFirst (scanLineRulesF lowerStart lowerCont g.data.length true g.data)
  let tokens := dedupKeepFirst (scanLineRulesF upperStart upperCont g.data.length true g.data)
  let aliases := dedupKeepFirst (scanAliasesF g.data.length g.data)
  ⟨rules, tokens, aliases, if aliases.length > 0 then aliases else rules⟩

/- ---------------------------------------------------------------------------
Interpreter regeneration request builders (index.js lines 816-947 and
949-1070).

regenerateInterpreterWithUserFix(grammarText, schema, semantics, errorMessage,
sampleCode, currentCode, userInstructions) and regenerateInterpreterWithFix
(grammarText, schema, semantics, errorMessage, sampleCode) each send one
non-streaming request whose `instructions` string is a template over the
error message and sample code (plus, for the user-fix variant, the operator
instructions and the current failing interpreter body), and whose `input`
string is a template over the grammar, the schema-derived AST notes and the
semantics.  The head of both instruction templates (everything up to and
including the sample-input line) and their tail (from "Common issues" to the
end) are byte-identical in the source; they are factored into the shared
constants below, and each builder concatenates them exactly as its source
template reads.
--------------------------------------------------------------------------- -/

/-- Shared head of both instruction templates, up to the interpolated error
message (index.js lines 819-824 = 952-957). -/
def regenHead : String :=
  "\nYou write a self-contained JavaScript module that INTERPRETS programs written in a DSL.\nDo NOT restate or explain anything; output ONLY code.\n\nCRITICAL: The previous interpreter failed with this error:\n"

/-- Shared segment between the error message and the sample code (index.js
line 826 = 959). -/
def regenMid : String :=
  "\n\nWhen testing with sample input: \""

/-- Shared segment after the sample code: the closing quote and the blank line
(index.js lines 826-828 = 959-961). -/
def regenAfterSample : String := "\"\n\n"

/-- The user-fix-only block: operator instructions and the current failing
interpreter body (index.js lines 828-836), ending just before the shared
tail. -/
def regenUserFixBlock (userInstructions currentCode : String) : String :=
  "USER" ++ sqStr ++ "S FIX INSTRUCTIONS:\n" ++ userInstructions ++
    "\n\nCURRENT INTERPRETER CODE THAT FAILED:\n<<<CURRENT_CODE\n" ++ currentCode ++
    "\nCURRENT_CODE>>>\n\nThe user has specifically requested the above fixes. Make sure to address their concerns while fixing the error.\n\n"

/-- Shared tail of both instruction templates (index.js lines 838-864 =
961-987), transcribed verbatim. -/
def regenTail : String :=
  "Common issues to avoid:\n- The parser may not accept options like " ++ sqStr ++ "strict" ++ sqStr ++ " or " ++ sqStr ++ "ordered_sets" ++ sqStr ++ " - don" ++ sqStr ++ "t pass them\n- Make sure to only pass supported options to get_parser: propagate_positions, transformer, tree_class, debug\n- Ensure the evaluate function handles all AST node types properly\n- Token nodes have \x7b type, value \x7d structure\n- Tree nodes have \x7b type, children \x7d structure\n- If the grammar requires semicolons at statement end, consider auto-adding them for convenience\n- The evaluate function must return the final result, not undefined\n\nRequirements for your output:\n- Define ONLY an `evaluate(ast)` function that interprets the AST\n- DO NOT include the run function or parser setup - that" ++ sqStr ++ "s handled by the prelude\n- DO NOT try to parse or call get_parser - you only work with the AST\n- The evaluate function should handle all node types from the grammar\n- Use the node.type field to determine which rule/alias is being evaluated\n- Token nodes have \x7b type, value \x7d structure\n- Tree nodes have \x7b type, children \x7d structure\n- No eval(), no network, deterministic, side-effect free (unless SEMANTICS says otherwise).\n- Include helpful error messages for unknown node types.\n\nCRITICAL for handling operators:\n- Operators appear as token nodes in the children array between operands\n- Check token.type (not token.value) for operator tokens like ADD_OP, SUB_OP, MUL_OP, DIV_OP\n- Example: For \"1 + 2\", the sum node will have children: [operand1, ADD_OP token, operand2]\n- When processing binary operations, iterate through children finding alternating operands and operators\n\nKeep the code idiomatic, readable, with small helpers for walking the AST."

/-- The `instructions` string of regenerateInterpreterWithUserFix (index.js
lines 819-864), as a function of the error message, sample code, current
failing interpreter body, and operator instructions. -/
def regenInstructionsUser (errorMessage sampleCode currentCode userInstructions : String) :
    String :=
  regenHead ++ errorMessage ++ regenMid ++ sampleCode ++ regenAfterSample ++
    regenUserFixBlock userInstructions currentCode ++ regenTail

/-- The `instructions` string of regenerateInterpreterWithFix (index.js lines
952-987): the same template with the user-fix block absent.  The current
failing interpreter body is not a parameter of the source function at all
(call site at lines 756-762 passes only grammar, schema, semantics, error
message and sample code). -/
def regenInstructionsAuto (errorMessage sampleCode : String) : String :=
  regenHead ++ errorMessage ++ regenMid ++ sampleCode ++ regenAfterSample ++ regenTail

/-- The `prompt` (request input) built identically by both regeneration
functions and by generateInterpreter (index.js lines 883-901 = 1006-1024 =
1126-1144): a template over the grammar text, the pretty-printed AST-notes
JSON derived from the schema (taken here as an opaque string, identical at
both call sites), and the semantics. -/
def regenPrompt (grammarText astNotesJson semantics : String) : String :=
  "\nGRAMMAR:\n<<<LARK\n" ++ grammarText ++ "\nLARK>>>\n\nAST NOTES (structure only):\n" ++
    astNotesJson ++ "\n\nSEMANTICS (what the language should DO):\n<<<SEM\n" ++ semantics ++
    "\nSEM>>>\n\nWrite ONLY the evaluate function now. Output ONLY code. \nThe function signature must be: function evaluate(ast) \x7b ... \x7d\nDO NOT export anything - the prelude handles exports.\nDO NOT create a run function - the prelude handles that.\nUse AST node `type` strings from the notes above (prefer alias names if present)."

/- ---------------------------------------------------------------------------
Module reloading in the test-and-repair loop (index.js lines 635-799).

The initial test clears the parser's require-cache entry and requires it
(binding `get_parser`, lines 647-652), then imports the interpreter with a
cache-busting `?t=` timestamp key (line 661).  Each fix attempt — in both the
user-fix branch (lines 710-721) and the automatic-fix branch (lines 764-776) —
writes the regenerated interpreter to disk, deletes the parser's
require-cache entry again, and imports the interpreter under a fresh `?t=`
key; the parser module is never re-required inside the loop, and every
attempt calls `makeRunnerFixed(get_parser)` with the binding captured at the
initial load.

The model tracks the interpreter file on disk, the ES-module cache keyed by
the `?t=` timestamp, the number of times the parser module was instantiated,
and whether its require-cache entry is present.
--------------------------------------------------------------------------- -/

/-- Module-system state visible to testGeneratedCode. -/
structure RepairSys where
  disk : String
  esm : List (Nat × String)
  parserLoads : Nat
  reqCacheParser : Bool
deriving DecidableEq

/-- Association lookup in the ES-module cache. -/
def lookupNat (t : Nat) : List (Nat × String) → Option String
  | [] => none
  | e :: rest => if e.1 = t then some e.2 else lookupNat t rest

/-- `await import(file + '?t=' + t)`: a cached key returns the previously
captured module, otherwise the current disk content is instantiated and
cached. -/
def esmImport (sys : RepairSys) (t : Nat) : String × RepairSys :=
  match lookupNat t sys.esm with
  | some content => (content, sys)
  | none => (sys.disk, ⟨sys.disk, (t, sys.disk) :: sys.esm, sys.parserLoads, sys.reqCacheParser⟩)

/-- The state after testGeneratedCode's initial test setup (lines 647-661):
the parser is required once (load number 1) and the interpreter imported
under key `t0`. -/
def initialRepairSys (interp0 : String) (t0 : Nat) : RepairSys :=
  (esmImport ⟨interp0, [], 1, true⟩ t0).2

/-- What one repair attempt executes with: the parser instance passed to
`makeRunner` and the interpreter module content that ran. -/
structure AttemptExec where
  parserInstance : Nat
  interpContent : String
deriving DecidableEq

/-- One fix attempt (lines 710-721 / 764-776): write the regenerated
interpreter, delete the parser's require-cache entry, import the interpreter
under key `t`, and run `makeRunnerFixed(get_parser)` with the parser binding
`pInst` captured at the initial load. -/
def repairStep (pInst : Nat) (sys : RepairSys) (fixedCode : String) (t : Nat) :
    AttemptExec × RepairSys :=
  let sys1 : RepairSys := ⟨fixedCode, sys.esm, sys.parserLoads, false⟩
  let r := esmImport sys1 t
  (⟨pInst, r.1⟩, r.2)

/-- The fix-attempt loop: attempts numbered `k, k+1, ...`, `m` attempts to
run.  `fixes` gives the regenerated interpreter body of each attempt and
`times` the `Date.now()` value of its import. -/
def repairGo (pInst : Nat) (fixes : Nat → String) (times : Nat → Nat) :
    Nat → Nat → RepairSys → List AttemptExec × RepairSys
  | _, 0, sys => ([], sys)
  | k, m + 1, sys =>
    let step := repairStep pInst sys (fixes k) (times k)
    let rest := repairGo pInst fixes times (k + 1) m step.2
    (step.1 :: rest.1, rest.2)

/-- A full repair run: initial setup with interpreter `interp0` and import key
`t0`, then `n` fix attempts.  The parser binding passed to every attempt is
the one captured at the single initial load (instance 1). -/
def repairRun (interp0 : String) (t0 : Nat) (fixes : Nat → String) (times : Nat → Nat)
    (n : Nat) : List AttemptExec × RepairSys :=
  repairGo 1 fixes times 1 n (initialRepairSys interp0 t0)

/- ---------------------------------------------------------------------------
Operator prompt of testGeneratedCode (index.js lines 679-797) and promptUser
(lines 802-814).
--------------------------------------------------------------------------- -/

/-- The action taken for each operator choice at the main failure prompt. -/
inductive PromptAction where
  | userFix
  | autoFix
  | continueAnyway
  | abortExit (code : Nat)
deriving DecidableEq

/-- The dispatch on the operator's choice (index.js lines 688, 747, 789, 793):
anything other than '1', '2' or '3' falls through to
`process.exit(1)`. -/
def mainPromptDispatch (choice : String) : PromptAction :=
  if choice = "1" then .userFix
  else if choice = "2" then .autoFix
  else if choice = "3" then .continueAnyway
  else .abortExit 1

/-- promptUser (index.js line 811) resolves with `answer.trim()`. -/
def promptUserReturn (raw : String) : String := jsTrim raw

/- ---------------------------------------------------------------------------
Concrete inputs used to settle the claims.
--------------------------------------------------------------------------- -/

/-- The empty cache. -/
def emptyCache : CacheState := []

/-- The configuration of a default environment: LANG_GEN_READ_CACHE and
LANG_GEN_WRITE_CACHE unset, no sample. -/
def cfgDefaultEnv : CacheCfg := ⟨envReadFlag none, envWriteFlag none, ""⟩

/-- A configuration with both cache read and cache write enabled. -/
def cfgBothOn : CacheCfg := ⟨true, true, ""⟩

/-- A synthesis oracle whose every attempt streams the valid grammar
"start: x". -/
def svcAlwaysOk : Nat → Except String String := fun _ => .ok "start: x"

/-- First generateGrammar call under the default environment. -/
def c1Run1Default : GenOutcome := generateGrammar cfgDefaultEnv emptyCache svcAlwaysOk "calc" 3

/-- Second, byte-identical generateGrammar call under the default
environment, seeing the cache the first call left behind. -/
def c1Run2Default : GenOutcome :=
  generateGrammar cfgDefaultEnv c1Run1Default.cacheAfter svcAlwaysOk "calc" 3

/-- First generateGrammar call with reads and writes both enabled. -/
def c1Run1Both : GenOutcome := generateGrammar cfgBothOn emptyCache svcAlwaysOk "calc" 3

/-- Second, byte-identical generateGrammar call with reads and writes both
enabled. -/
def c1Run2Both : GenOutcome :=
  generateGrammar cfgBothOn c1Run1Both.cacheAfter svcAlwaysOk "calc" 3

/-- A two-field cache input. -/
def c2InputA : CacheInput :=
  [("spec", .atom (.str "a")), ("grammarText", .atom (.str "b"))]

/-- The same fields with the same values in the opposite insertion order. -/
def c2InputB : CacheInput :=
  [("grammarText", .atom (.str "b")), ("spec", .atom (.str "a"))]

/-- A streamed grammar text containing a single-quoted literal: `A: 'x'`. -/
def c3BadText : String := "A: " ++ sqStr ++ "x" ++ sqStr

/-- An oracle whose first attempt streams only whitespace and whose later
attempts stream `A: 'x'`; every attempt fails local validation. -/
def c3Oracle : Nat → Except String String :=
  fun k => if k = 1 then .ok "" else .ok c3BadText

/-- The generateGrammar run on `c3Oracle` with maxRetries 3. -/
def c3Run : GenOutcome := generateGrammar cfgDefaultEnv emptyCache c3Oracle "calc" 3

/-- A grammar text with an unescaped single-quoted literal outside a regex
pattern: `R: /a/'x'` (the literal `'x'` follows the regex `/a/`). -/
def c4Grammar : String := "R: /a/" ++ sqStr ++ "x" ++ sqStr

/-- The spec's single-quote example: a text containing `'x'`. -/
def c4WitnessRaw : String := sqStr ++ "x" ++ sqStr

/-- A representative parser artifact produced by lark-js: the generated
`get_parser` function followed by the module epilogue. -/
def c5DemoContent : String :=
  getParserPatA ++ "\n  " ++ getParserPatB ++ "\n" ++ String.mk [rbraceChar] ++
    "\nmodule.exports = \x7b get_parser \x7d;\n"

/-- A compiler oracle whose every attempt exits zero with `c5DemoContent`. -/
def c5DemoOracle : Nat → SpawnResult := fun _ => .success c5DemoContent

/-- The grammar of the schema-extraction scenario: rules start, sum, product;
tokens NUMBER, ADD_OP; one alias `-> neg`. -/
def c6Grammar : String :=
  "start: sum\nsum: product (ADD_OP product)*\nproduct: NUMBER -> neg\nNUMBER: /[0-9]+/\nADD_OP: \"+\""

/-- The regenerated interpreter body written by fix attempt `k`. -/
def c8Fixes : Nat → String := fun k => "BODY" ++ toString k

/-- Import timestamps of the fix attempts (all distinct, distinct from the
initial import's timestamp 100). -/
def c8Times : Nat → Nat := fun k => k

/-- A two-attempt repair run: initial interpreter "BODY0" imported at
timestamp 100, then two fix attempts. -/
def c8Run : List AttemptExec × RepairSys := repairRun "BODY0" 100 c8Fixes c8Times 2

/-- An oracle whose first attempt streams whitespace only and whose later
attempts stream a valid grammar. -/
def c10Oracle : Nat → Except String String :=
  fun k => if k = 1 then .ok "  " else .ok "start: x"

/-- The trace the retry loop produces when every attempt fails: attempt `k`
sees `prev`, and each failure appends its message. -/
def allFailTrace (cfg : CacheCfg) (oracle : Nat → Except String String) :
    Nat → List String → Nat → List GenAttempt
  | _, _, 0 => []
  | k, prev, r + 1 =>
    ⟨prev, grammarInstructions cfg.sample prev, attemptOutcome (oracle k)⟩ ::
      allFailTrace cfg oracle (k + 1) (prev ++ [attemptErrMsg (oracle k)]) r

/- ---------------------------------------------------------------------------
Helper lemmas.
--------------------------------------------------------------------------- -/

theorem strExt {a b : String} (h : a.data = b.data) : a = b := by
  cases a
  cases b
  exact congrArg String.mk h

theorem strData_append (a b : String) : (a ++ b).data = a.data ++ b.data := by
  cases a
  cases b
  rfl

theorem strAppend_left_cancel {t a b : String} (h : t ++ a = t ++ b) : a = b := by
  apply strExt
  have hd := congrArg String.data h
  rw [strData_append, strData_append] at hd
  exact List.append_cancel_left hd

theorem startsWithCh_refl (l : List Char) : startsWithCh l l = true := by
  induction l with
  | nil => rfl
  | cons c cs ih => simp [startsWithCh, ih]

theorem startsWithCh_self_append (t b : List Char) : startsWithCh t (t ++ b) = true := by
  induction t with
  | nil => rfl
  | cons c cs ih => simp [startsWithCh, ih]

theorem startsWithCh_extend {t l : List Char} (b : List Char) (h : startsWithCh t l = true) :
    startsWithCh t (l ++ b) = true := by
  induction t generalizing l with
  | nil => rfl
  | cons c cs ih =>
    cases l with
    | nil => simp [startsWithCh] at h
    | cons d ds =>
      simp only [startsWithCh, Bool.and_eq_true, decide_eq_true_eq] at h
      simp only [List.cons_append, startsWithCh, Bool.and_eq_true, decide_eq_true_eq]
      exact ⟨h.1, ih h.2⟩

theorem occursInCh_of_startsWith {t l : List Char} (h : startsWithCh t l = true) :
    occursInCh t l = true := by
  cases l with
  | nil => simpa [occursInCh] using h
  | cons c cs => simp [occursInCh, h]

theorem occursInCh_append_left {t s : List Char} (a : List Char) (h : occursInCh t s = true) :
    occursInCh t (a ++ s) = true := by
  induction a with
  | nil => simpa using h
  | cons c cs ih =>
    simp only [List.cons_append, occursInCh, Bool.or_eq_true]
    exact Or.inr ih

theorem occursInCh_append_right {t s : List Char} (b : List Char) (h : occursInCh t s = true) :
    occursInCh t (s ++ b) = true := by
  induction s with
  | nil =>
    cases t with
    | nil => exact occursInCh_of_startsWith rfl
    | cons c cs => simp [occursInCh, startsWithCh] at h
  | cons c cs ih =>
    simp only [occursInCh, Bool.or_eq_true] at h
    simp only [List.cons_append, occursInCh, Bool.or_eq_true]
    rcases h with h1 | h2
    · exact Or.inl (startsWithCh_extend b h1)
    · exact Or.inr (ih h2)

theorem strOccursIn_refl (t : String) : occursIn t t = true :=
  occursInCh_of_startsWith (startsWithCh_refl t.data)

theorem strOccursIn_left {t s : String} (a : String) (h : occursIn t s = true) :
    occursIn t (a ++ s) = true := by
  unfold occursIn at h ⊢
  rw [strData_append]
  exact occursInCh_append_left a.data h

theorem strOccursIn_right {t s : String} (b : String) (h : occursIn t s = true) :
    occursIn t (s ++ b) = true := by
  unfold occursIn at h ⊢
  rw [strData_append]
  exact occursInCh_append_right b.data h

theorem occursIn_attemptLines {e : String} :
    ∀ (es : List String) (i : Nat), e ∈ es → occursIn e (attemptLines i es) = true := by
  intro es
  induction es with
  | nil => intro i h; cases h
  | cons a tl ih =>
    intro i h
    rcases List.mem_cons.mp h with h1 | h2
    · subst h1
      show occursIn e ("Attempt " ++ toString i ++ ": " ++ e ++ "\n" ++ attemptLines (i + 1) tl) = true
      exact strOccursIn_right _ (strOccursIn_right _ (strOccursIn_left _ (strOccursIn_refl e)))
    · show occursIn e ("Attempt " ++ toString i ++ ": " ++ a ++ "\n" ++ attemptLines (i + 1) tl) = true
      exact strOccursIn_left _ (ih (i + 1) h2)

theorem occursIn_grammarInstructions {gs e : String} {es : List String} (h : e ∈ es) :
    occursIn e (grammarInstructions gs es) = true := by
  have hne : ¬ es = [] := by
    intro hcon
    subst hcon
    cases h
  unfold grammarInstructions prevErrorsSection
  rw [if_neg hne]
  exact strOccursIn_left _ (strOccursIn_right _ (strOccursIn_left _ (occursIn_attemptLines es 1 h)))

theorem validateGrammarText_ok_ne_empty {raw g : String} (h : validateGrammarText raw = .ok g) :
    ¬ g = "" := by
  unfold validateGrammarText at h
  by_cases he : jsTrim raw = ""
  · simp [he] at h
  · rw [if_neg he] at h
    cases hg : grammarSyntaxErrors (jsTrim raw) with
    | nil =>
      rw [hg] at h
      simp only [Except.ok.injEq] at h
      subst h
      exact he
    | cons x xs =>
      rw [hg] at h
      simp at h

theorem attemptOutcome_ok {o : Except String String} {g : String}
    (h : attemptOutcome o = .ok g) : ∃ raw, validateGrammarText raw = .ok g := by
  cases o with
  | error m => simp [attemptOutcome] at h
  | ok raw => exact ⟨raw, h⟩

theorem runAttempts_result_ne_emptyOk (cfg : CacheCfg) (oracle : Nat → Except String String)
    (spec : String) (mr : Nat) :
    ∀ (r k : Nat) (prev : List String) (st : CacheState),
      ¬ (runAttempts cfg oracle spec mr k r prev st).2.1 = .ok "" := by
  intro r
  induction r with
  | zero => intro k prev st; simp [runAttempts]
  | succ n ih =>
    intro k prev st
    show ¬ (runAttempts cfg oracle spec mr k (n + 1) prev st).2.1 = .ok ""
    unfold runAttempts
    cases ho : attemptOutcome (oracle k) with
    | ok g =>
      simp only [ho]
      intro hcon
      simp only [Except.ok.injEq] at hcon
      obtain ⟨raw, hraw⟩ := attemptOutcome_ok ho
      exact validateGrammarText_ok_ne_empty hraw hcon
    | error m =>
      simp only [ho]
      by_cases hn : n = 0
      · subst hn; simp
      · rw [if_neg hn]
        exact ih (k + 1) (prev ++ [m]) st

theorem runAttempts_cacheEmpty (cfg : CacheCfg) (oracle : Nat → Except String String)
    (spec : String) (mr : Nat) :
    ∀ (r k : Nat) (prev : List String) (st : CacheState),
      cacheHasEmptyOut (runAttempts cfg oracle spec mr k r prev st).2.2 =
        cacheHasEmptyOut st := by
  intro r
  induction r with
  | zero => intro k prev st; simp [runAttempts]
  | succ n ih =>
    intro k prev st
    show cacheHasEmptyOut (runAttempts cfg oracle spec mr k (n + 1) prev st).2.2 = _
    unfold runAttempts
    cases ho : attemptOutcome (oracle k) with
    | ok g =>
      simp only [ho]
      obtain ⟨raw, hraw⟩ := attemptOutcome_ok ho
      have hg := validateGrammarText_ok_ne_empty hraw
      unfold saveCache
      by_cases hw : cfg.writeCache
      · rw [if_pos hw]
        show (decide (g = "") || cacheHasEmptyOut st) = cacheHasEmptyOut st
        simp [hg]
      · rw [if_neg hw]
    | error m =>
      simp only [ho]
      by_cases hn : n = 0
      · subst hn; simp
      · rw [if_neg hn]
        exact ih (k + 1) (prev ++ [m]) st

theorem runAttempts_head (cfg : CacheCfg) (oracle : Nat → Except String String) (spec : String)
    (mr k r : Nat) (prev : List String) (st : CacheState) (hr : ¬ r = 0) :
    ∃ tl res cst,
      runAttempts cfg oracle spec mr k r prev st =
        (⟨prev, grammarInstructions cfg.sample prev, attemptOutcome (oracle k)⟩ :: tl,
          res, cst) := by
  obtain ⟨r', rfl⟩ : ∃ r', r = r' + 1 := ⟨r - 1, by omega⟩
  cases ho : attemptOutcome (oracle k) with
  | ok g =>
    refine ⟨[], .ok g, saveCache cfg st "grammar" (grammarInput spec) g, ?_⟩
    simp only [runAttempts, ho]
  | error m =>
    by_cases hn : r' = 0
    · subst hn
      refine ⟨[], .error (mkFinalFailMsg mr m), st, ?_⟩
      simp only [runAttempts, ho]
      simp
    · refine ⟨(runAttempts cfg oracle spec mr (k + 1) r' (prev ++ [m]) st).1,
        (runAttempts cfg oracle spec mr (k + 1) r' (prev ++ [m]) st).2.1,
        (runAttempts cfg oracle spec mr (k + 1) r' (prev ++ [m]) st).2.2, ?_⟩
      simp only [runAttempts, ho, if_neg hn]

theorem runAttempts_cons (cfg : CacheCfg) (oracle : Nat → Except String String) (spec : String)
    (mr k r : Nat) (prev : List String) (st : CacheState) {m : String}
    (ho : attemptOutcome (oracle k) = .error m) (hr : 2 ≤ r) :
    runAttempts cfg oracle spec mr k r prev st =
      (⟨prev, grammarInstructions cfg.sample prev, .error m⟩ ::
          (runAttempts cfg oracle spec mr (k + 1) (r - 1) (prev ++ [m]) st).1,
        (runAttempts cfg oracle spec mr (k + 1) (r - 1) (prev ++ [m]) st).2.1,
        (runAttempts cfg oracle spec mr (k + 1) (r - 1) (prev ++ [m]) st).2.2) := by
  obtain ⟨r', rfl⟩ : ∃ r', r = r' + 1 := ⟨r - 1, by omega⟩
  have hn : ¬ r' = 0 := by omega
  simp only [runAttempts, ho, if_neg hn]
  simp

theorem runAttempts_all_fail (cfg : CacheCfg) (oracle : Nat → Except String String)
    (spec : String) (mr : Nat) :
    ∀ (r : Nat), 1 ≤ r → ∀ (k : Nat) (prev : List String) (st : CacheState),
      (∀ i, k ≤ i → i < k + r → isErrE (attemptOutcome (oracle i)) = true) →
      runAttempts cfg oracle spec mr k r prev st =
        (allFailTrace cfg oracle k prev r,
          .error (mkFinalFailMsg mr (attemptErrMsg (oracle (k + r - 1)))), st) := by
  intro r
  induction r with
  | zero => intro h; omega
  | succ n ih =>
    intro _ k prev st hfail
    have hk : isErrE (attemptOutcome (oracle k)) = true := hfail k (Nat.le_refl k) (by omega)
    cases ho : attemptOutcome (oracle k) with
    | ok g => rw [ho] at hk; simp [isErrE] at hk
    | error m =>
      have hmsg : attemptErrMsg (oracle k) = m := by
        unfold attemptErrMsg
        rw [ho]
      by_cases hn : n = 0
      · subst hn
        have etr : allFailTrace cfg oracle k prev (0 + 1) =
            [⟨prev, grammarInstructions cfg.sample prev, attemptOutcome (oracle k)⟩] := rfl
        have eidx : k + (0 + 1) - 1 = k := by omega
        rw [etr, eidx, hmsg, ho]
        simp only [runAttempts, ho]
        simp
      · have hrec := ih (by omega) (k + 1) (prev ++ [m]) st
          (by intro i h1 h2; exact hfail i (by omega) (by omega))
        have eidx : k + 1 + n - 1 = k + (n + 1) - 1 := by omega
        have etr : allFailTrace cfg oracle k prev (n + 1) =
            ⟨prev, grammarInstructions cfg.sample prev, attemptOutcome (oracle k)⟩ ::
              allFailTrace cfg oracle (k + 1) (prev ++ [attemptErrMsg (oracle k)]) n := rfl
        rw [etr, hmsg, ho]
        simp only [runAttempts, ho, if_neg hn]
        rw [hrec, eidx]

theorem compileAttempts_ok (oracle : Nat → SpawnResult) (g : String) (mr : Nat) :
    ∀ (r k : Nat) (last : String) (s : CompileOk),
      compileAttempts oracle g mr k r last = .ok s →
      (firstZeroContent oracle k r).map replaceGetParser = some s.parserContent := by
  intro r
  induction r with
  | zero => intro k last s h; simp [compileAttempts] at h
  | succ n ih =>
    intro k last s h
    cases ho : oracle k with
    | success content =>
      simp only [compileAttempts, ho] at h
      simp only [Except.ok.injEq] at h
      subst h
      simp [firstZeroContent, ho]
    | failure code out =>
      simp only [compileAttempts, ho] at h
      simp only [firstZeroContent, ho]
      exact ih (k + 1) (spawnErrMsg (.failure code out)) s h
    | launchError msg =>
      simp only [compileAttempts, ho] at h
      simp only [firstZeroContent, ho]
      exact ih (k + 1) (spawnErrMsg (.launchError msg)) s h

theorem repairGo_spec (fixes : Nat → String) (times : Nat → Nat) (pInst : Nat) :
    ∀ (m k : Nat) (sys : RepairSys), 1 ≤ k →
      (∀ i, k ≤ i → i < k + m → lookupNat (times i) sys.esm = none) →
      (∀ i j, k ≤ i → i < j → j < k + m → ¬ times i = times j) →
      (repairGo pInst fixes times k m sys).2.parserLoads = sys.parserLoads ∧
      (∀ i, k ≤ i → i < k + m →
        (repairGo pInst fixes times k m sys).1.get? (i - k) = some ⟨pInst, fixes i⟩) := by
  intro m
  induction m with
  | zero =>
    intro k sys hk hfresh hinj
    refine ⟨rfl, ?_⟩
    intro i h1 h2
    omega
  | succ n ih =>
    intro k sys hk hfresh hinj
    have hlk : lookupNat (times k) sys.esm = none := hfresh k (Nat.le_refl k) (by omega)
    have hstep : repairStep pInst sys (fixes k) (times k) =
        (⟨pInst, fixes k⟩,
          ⟨fixes k, (times k, fixes k) :: sys.esm, sys.parserLoads, false⟩) := by
      unfold repairStep esmImport
      simp [hlk]
    have hrec := ih (k + 1) ⟨fixes k, (times k, fixes k) :: sys.esm, sys.parserLoads, false⟩
      (by omega)
      (by
        intro i h1 h2
        show lookupNat (times i) ((times k, fixes k) :: sys.esm) = none
        unfold lookupNat
        have hne : ¬ times k = times i := hinj k i (Nat.le_refl k) (by omega) (by omega)
        rw [if_neg hne]
        exact hfresh i (by omega) (by omega))
      (by intro i j h1 h2 h3; exact hinj i j (by omega) h2 (by omega))
    constructor
    · show (repairGo pInst fixes times k (n + 1) sys).2.parserLoads = sys.parserLoads
      simp only [repairGo, hstep]
      exact hrec.1
    · intro i h1 h2
      show (repairGo pInst fixes times k (n + 1) sys).1.get? (i - k) = some ⟨pInst, fixes i⟩
      simp only [repairGo, hstep]
      by_cases hik : i = k
      · subst hik
        simp
      · have hik' : k + 1 ≤ i := by omega
        have := hrec.2 i hik' (by omega)
        have hidx : i - k = (i - (k + 1)) + 1 := by omega
        rw [hidx]
        simpa using this

/- ---------------------------------------------------------------------------
Claim theorems.
--------------------------------------------------------------------------- -/

/-- C1: cache idempotence.  The claim says that calling a stage twice with
byte-identical input while cache writes are enabled yields a cache hit on the
second call with the synthesis service invoked at most once.  The code's own
comment on READ_FROM_CACHE says "Default true", but the comparison
`process.env.LANG_GEN_READ_CACHE === 'true'` makes the read flag false in the
default environment, so the second call misses and invokes the service again
(two invocations, no hit); with the read flag set as documented, the claimed
behavior holds (hit on the second call, one invocation, identical result). -/
theorem c1_cache_idempotence_read_default :
    envReadFlag none = false ∧ envWriteFlag none = true ∧
      (c1Run2Default.cacheHit = false ∧
        c1Run1Default.attempts.length + c1Run2Default.attempts.length = 2) ∧
      (c1Run2Both.cacheHit = true ∧
        c1Run1Both.attempts.length + c1Run2Both.attempts.length = 1 ∧
        c1Run2Both.result = Except.ok "start: x") := by
  decide

/-- C2 (amended): the cache key is deterministic and is determined exactly by
the stage type together with the JSON serialization of the input; since
`JSON.stringify` serializes fields in insertion order, logically-equal inputs
with different field insertion order serialize differently and so produce
different keys. -/
theorem c2_cache_key_determined_by_serialization :
    ∀ (t : String) (v w : CacheInput),
      getCacheKey t v = getCacheKey t w ↔ serializeInput v = serializeInput w := by
  intro t v w
  constructor
  · intro h
    exact strAppend_left_cancel h
  · intro h
    unfold getCacheKey
    rw [h]

/-- C2 counterexample: two cache inputs with the same fields and the same
values, differing only in field insertion order (they are permutations of one
another), receive different cache keys from getCacheKey — refuting the claim
that key derivation is insensitive to field insertion order. -/
theorem c2_cache_key_order_sensitivity_cex :
    List.Perm c2InputA c2InputB ∧
      ¬ getCacheKey "example" c2InputA = getCacheKey "example" c2InputB := by
  constructor
  · decide
  · decide

/-- C3 (amended): with maxRetries 3 and every attempt failing local
validation, exactly 3 synthesis attempts occur; the error finally thrown
carries the attempt count and the LAST attempt's error message only, while
the full list of prior messages is what the third attempt received in its
`previousErrors` and instruction payload (each prior message occurs verbatim
there); nothing is cached. -/
theorem c3_retry_bound_and_error_context (cfg : CacheCfg) (st : CacheState)
    (oracle : Nat → Except String String) (spec : String)
    (hmiss : getCached cfg st "grammar" (grammarInput spec) = none)
    (h1 : isErrE (attemptOutcome (oracle 1)) = true)
    (h2 : isErrE (attemptOutcome (oracle 2)) = true)
    (h3 : isErrE (attemptOutcome (oracle 3)) = true) :
    (generateGrammar cfg st oracle spec 3).attempts.length = 3 ∧
    (generateGrammar cfg st oracle spec 3).result =
      .error (mkFinalFailMsg 3 (attemptErrMsg (oracle 3))) ∧
    ((generateGrammar cfg st oracle spec 3).attempts.get? 2).map GenAttempt.prevErrors =
      some [attemptErrMsg (oracle 1), attemptErrMsg (oracle 2)] ∧
    ((generateGrammar cfg st oracle spec 3).attempts.get? 2).map GenAttempt.instructions =
      some (grammarInstructions cfg.sample
        [attemptErrMsg (oracle 1), attemptErrMsg (oracle 2)]) ∧
    occursIn (attemptErrMsg (oracle 1))
      (grammarInstructions cfg.sample
        [attemptErrMsg (oracle 1), attemptErrMsg (oracle 2)]) = true ∧
    occursIn (attemptErrMsg (oracle 2))
      (grammarInstructions cfg.sample
        [attemptErrMsg (oracle 1), attemptErrMsg (oracle 2)]) = true ∧
    (generateGrammar cfg st oracle spec 3).cacheAfter = st := by
  have hall := runAttempts_all_fail cfg oracle spec 3 3 (by omega) 1 [] st
    (by
      intro i hi1 hi2
      have : i = 1 ∨ i = 2 ∨ i = 3 := by omega
      rcases this with rfl | rfl | rfl
      · exact h1
      · exact h2
      · exact h3)
  simp only [generateGrammar, hmiss]
  rw [hall]
  refine ⟨rfl, rfl, rfl, rfl, ?_, ?_, rfl⟩
  · exact occursIn_grammarInstructions (by simp)
  · exact occursIn_grammarInstructions (by simp)

/-- C3 witness: the amended theorem applied to a concrete oracle whose first
attempt streams whitespace only and whose later attempts stream a grammar
with a single-quoted literal. -/
theorem c3_retry_bound_and_error_context_witness :
    (generateGrammar cfgDefaultEnv emptyCache c3Oracle "calc" 3).attempts.length = 3 ∧
    (generateGrammar cfgDefaultEnv emptyCache c3Oracle "calc" 3).result =
      .error (mkFinalFailMsg 3 (attemptErrMsg (c3Oracle 3))) ∧
    ((generateGrammar cfgDefaultEnv emptyCache c3Oracle "calc" 3).attempts.get? 2).map
        GenAttempt.prevErrors =
      some [attemptErrMsg (c3Oracle 1), attemptErrMsg (c3Oracle 2)] ∧
    ((generateGrammar cfgDefaultEnv emptyCache c3Oracle "calc" 3).attempts.get? 2).map
        GenAttempt.instructions =
      some (grammarInstructions cfgDefaultEnv.sample
        [attemptErrMsg (c3Oracle 1), attemptErrMsg (c3Oracle 2)]) ∧
    occursIn (attemptErrMsg (c3Oracle 1))
      (grammarInstructions cfgDefaultEnv.sample
        [attemptErrMsg (c3Oracle 1), attemptErrMsg (c3Oracle 2)]) = true ∧
    occursIn (attemptErrMsg (c3Oracle 2))
      (grammarInstructions cfgDefaultEnv.sample
        [attemptErrMsg (c3Oracle 1), attemptErrMsg (c3Oracle 2)]) = true ∧
    (generateGrammar cfgDefaultEnv emptyCache c3Oracle "calc" 3).cacheAfter = emptyCache :=
  c3_retry_bound_and_error_context cfgDefaultEnv emptyCache c3Oracle "calc"
    (by decide) (by decide) (by decide) (by decide)

/-- C3 counterexample: on a run whose three attempts all fail (the first with
"Generated grammar is empty", the later ones with a single-quote syntax
error), the error finally thrown does NOT contain the first attempt's error
message — refuting the claim that the final error enumerates all 3 prior
attempts' messages. -/
theorem c3_final_error_lacks_prior_messages_cex :
    c3Run.attempts.length = 3 ∧
      (c3Run.attempts.get? 0).map GenAttempt.outcome =
        some (Except.error "Generated grammar is empty") ∧
      isErrE c3Run.result = true ∧
      occursIn "Generated grammar is empty" (errMsgOf c3Run.result) = false := by
  decide

/-- C4 (amended): generateGrammar's local validation rejects — before any
grammar-compiler involvement (compileGrammar is a separate, later stage) —
every non-empty trimmed text on which either of its two quote checks fires:
a single-quoted run whose opening quote is not immediately preceded by a
slash (the code's approximation of "outside a regex pattern"), or a match of
the mismatched-quote pattern.  The attempt then throws the combined
"Grammar syntax errors" message, so the text is neither returned nor cached. -/
theorem c4_local_validation_rejects (raw : String)
    (h : ¬ grammarSyntaxErrors (jsTrim raw) = []) :
    validateGrammarText raw =
      .error ("Grammar syntax errors: " ++ joinWith "; " (grammarSyntaxErrors (jsTrim raw))) := by
  have he : ¬ jsTrim raw = "" := by
    intro hcon
    rw [hcon] at h
    exact h rfl
  simp only [validateGrammarText]
  rw [if_neg he]

/-- C4 witness: the spec's example `'x'` — a text containing an unescaped
single-quoted literal — is rejected by the amended theorem. -/
theorem c4_local_validation_rejects_witness :
    ¬ grammarSyntaxErrors (jsTrim c4WitnessRaw) = [] ∧
      validateGrammarText c4WitnessRaw =
        .error ("Grammar syntax errors: " ++
          joinWith "; " (grammarSyntaxErrors (jsTrim c4WitnessRaw))) :=
  ⟨by decide, c4_local_validation_rejects c4WitnessRaw (by decide)⟩

/-- C4 counterexample: the grammar text `R: /a/'x'` contains the unescaped
single-quoted literal `'x'` outside its only regex pattern `/a/`, yet the
validator accepts it (no syntax error fires, validateGrammarText returns it),
because the opening quote is immediately preceded by the regex's closing
slash and the `(?<![/])` lookbehind suppresses the match — refuting the claim
that every such text is rejected. -/
theorem c4_quote_after_slash_accepted_cex :
    occursIn (sqStr ++ "x" ++ sqStr) c4Grammar = true ∧
      occursIn "/a/" c4Grammar = true ∧
      grammarSyntaxErrors c4Grammar = [] ∧
      validateGrammarText c4Grammar = .ok c4Grammar := by
  decide

/-- C5: on every compileGrammar invocation that returns successfully (the
subprocess exited zero on some attempt), the parser artifact it returns is
exactly the produced parser text rewritten by the fixed deterministic
`replaceGetParser` post-processing; on a representative lark-js artifact the
rewrite installs the get_parser body that deletes the unsupported `strict`
and `ordered_sets` options, changing the artifact. -/
theorem c5_postprocess_applied_on_success (oracle : Nat → SpawnResult) (g : String)
    (s : CompileOk) (h : compileGrammar oracle g 3 = .ok s) :
    (firstZeroContent oracle 1 3).map replaceGetParser = some s.parserContent ∧
    occursIn "delete filteredData.options.strict;" (replaceGetParser c5DemoContent) = true ∧
    occursIn "delete filteredData.options.ordered_sets;" (replaceGetParser c5DemoContent) = true ∧
    ¬ replaceGetParser c5DemoContent = c5DemoContent := by
  exact ⟨compileAttempts_ok oracle g 3 3 1 "" s h, by decide, by decide, by decide⟩

/-- C5 witness: the theorem applied to an oracle whose first attempt exits
zero with the representative artifact. -/
theorem c5_postprocess_applied_on_success_witness :
    (firstZeroContent c5DemoOracle 1 3).map replaceGetParser =
        some (CompileOk.parserContent ⟨replaceGetParser c5DemoContent⟩) ∧
      occursIn "delete filteredData.options.strict;" (replaceGetParser c5DemoContent) = true ∧
      occursIn "delete filteredData.options.ordered_sets;" (replaceGetParser c5DemoContent) = true ∧
      ¬ replaceGetParser c5DemoContent = c5DemoContent :=
  c5_postprocess_applied_on_success c5DemoOracle "start: x" ⟨replaceGetParser c5DemoContent⟩ rfl

/-- C6: extractASTSchema is a pure total function of the grammar text (it is
a Lean function, total by construction, with no failure mode); on the
scenario grammar with rules start, sum, product, tokens NUMBER, ADD_OP and
the single alias `-> neg` it yields exactly the claimed schema; and in
general nodeTypes is the aliases when at least one alias exists and the rule
names otherwise. -/
theorem c6_schema_extraction :
    extractASTSchema c6Grammar =
      ⟨["start", "sum", "product"], ["NUMBER", "ADD_OP"], ["neg"], ["neg"]⟩ ∧
    ∀ g : String,
      (extractASTSchema g).nodeTypes =
        if (extractASTSchema g).aliases.length > 0 then (extractASTSchema g).aliases
        else (extractASTSchema g).rules := by
  refine ⟨by decide, ?_⟩
  intro g
  rfl

/-- C7 (amended): the operator-instructed regeneration's instruction payload
is the automatic-fix payload with one extra block inserted, and that block is
exactly where the operator free text AND the current failing interpreter body
travel — so the automatic fix uses the same inputs minus BOTH of those, not
minus only the free text.  (The request prompt carrying grammar, schema notes
and semantics, `regenPrompt`, is shared verbatim by both functions.) -/
theorem c7_autofix_inputs :
    ∀ e s c u : String,
      (∃ pre post,
        regenInstructionsUser e s c u = pre ++ regenUserFixBlock u c ++ post ∧
        regenInstructionsAuto e s = pre ++ post) ∧
      occursIn u (regenInstructionsUser e s c u) = true ∧
      occursIn c (regenInstructionsUser e s c u) = true := by
  intro e s c u
  refine ⟨⟨regenHead ++ e ++ regenMid ++ s ++ regenAfterSample, regenTail, rfl, rfl⟩, ?_, ?_⟩
  · unfold regenInstructionsUser regenUserFixBlock
    apply strOccursIn_right
    apply strOccursIn_left
    apply strOccursIn_right
    apply strOccursIn_right
    apply strOccursIn_right
    apply strOccursIn_left
    exact strOccursIn_refl u
  · unfold regenInstructionsUser regenUserFixBlock
    apply strOccursIn_right
    apply strOccursIn_left
    apply strOccursIn_right
    apply strOccursIn_left
    exact strOccursIn_refl c

/-- C7 counterexample: with the current failing interpreter body being the
marker string "ZQMARKERZQ", the marker occurs in the operator-instructed
request but occurs nowhere in the automatic-fix request (instructions and
prompt together) — refuting the claim that the automatic fix uses the current
failing interpreter artifact body. -/
theorem c7_autofix_lacks_current_code_cex :
    occursIn "ZQMARKERZQ"
        (regenInstructionsUser "E1" "1+2*3;" "ZQMARKERZQ" "UFIX") = true ∧
      occursIn "ZQMARKERZQ"
        (regenInstructionsAuto "E1" "1+2*3;" ++ regenPrompt "G" "NOTES" "SEM") = false := by
  decide

/-- C8 (amended): on every repair attempt the interpreter module IS reloaded
fresh from disk (each attempt imports under its own cache-busting timestamp
key, so the re-run executes exactly the interpreter body written by that
attempt, provided the timestamps are pairwise distinct and distinct from the
initial import's); the parser module, however, is NOT re-required inside the
loop — its require-cache entry is deleted, but every attempt reuses the
parser instance captured at the single initial load, so the total number of
parser loads stays 1. -/
theorem c8_repair_reload_behavior (interp0 : String) (t0 : Nat) (fixes : Nat → String)
    (times : Nat → Nat) (n k : Nat)
    (ht0 : ∀ i, 1 ≤ i → i ≤ n → ¬ times i = t0)
    (hinj : ∀ i j, 1 ≤ i → i < j → j ≤ n → ¬ times i = times j)
    (hk1 : 1 ≤ k) (hk2 : k ≤ n) :
    (repairRun interp0 t0 fixes times n).1.get? (k - 1) = some ⟨1, fixes k⟩ ∧
    (repairRun interp0 t0 fixes times n).2.parserLoads = 1 := by
  have hinit : initialRepairSys interp0 t0 = ⟨interp0, [(t0, interp0)], 1, true⟩ := rfl
  have hspec := repairGo_spec fixes times 1 n 1 (initialRepairSys interp0 t0) (Nat.le_refl 1)
    (by
      intro i hi1 hi2
      rw [hinit]
      show lookupNat (times i) [(t0, interp0)] = none
      have hne : ¬ (t0, interp0).1 = times i := by
        intro hcon
        exact ht0 i hi1 (by omega) hcon.symm
      simp [lookupNat, hne])
    (by
      intro i j hi1 hij hj
      exact hinj i j hi1 hij (by omega))
  unfold repairRun
  refine ⟨hspec.2 k hk1 (by omega), ?_⟩
  rw [hspec.1, hinit]

/-- C8 witness: a concrete two-attempt repair run with distinct timestamps;
the second attempt runs the second regenerated body with the initially loaded
parser instance, and the parser was loaded exactly once. -/
theorem c8_repair_reload_behavior_witness :
    (repairRun "BODY0" 100 c8Fixes c8Times 2).1.get? (2 - 1) = some ⟨1, c8Fixes 2⟩ ∧
    (repairRun "BODY0" 100 c8Fixes c8Times 2).2.parserLoads = 1 :=
  c8_repair_reload_behavior "BODY0" 100 c8Fixes c8Times 2 2
    (by intro i h1 h2; simp only [c8Times]; omega)
    (by intro i j h1 h2 h3; simp only [c8Times]; omega)
    (by omega) (by omega)

/-- C8 counterexample: in a two-attempt repair run the parser module is
loaded exactly once in total — it is never reloaded before a re-execution —
and both repair attempts reuse parser instance 1 from the initial load,
refuting the claim that both modules are reloaded fresh on every repair
attempt and that a stale cached instance of either module is never reused. -/
theorem c8_parser_not_reloaded_cex :
    c8Run.2.parserLoads = 1 ∧
      c8Run.1.get? 0 = some ⟨1, "BODY1"⟩ ∧
      c8Run.1.get? 1 = some ⟨1, "BODY2"⟩ := by
  decide

/-- C9 (amended): at the main failure prompt, every operator response whose
trimmed form (promptUser resolves with `answer.trim()`) is not exactly "1",
"2" or "3" makes the dispatch fall through to `process.exit(1)` — the entire
process terminates with exit status 1. -/
theorem c9_abort_catch_all (raw : String)
    (h1 : ¬ promptUserReturn raw = "1") (h2 : ¬ promptUserReturn raw = "2")
    (h3 : ¬ promptUserReturn raw = "3") :
    mainPromptDispatch (promptUserReturn raw) = .abortExit 1 := by
  unfold mainPromptDispatch
  rw [if_neg h1, if_neg h2, if_neg h3]

/-- C9 witness: the empty operator response aborts the process with exit
status 1. -/
theorem c9_abort_catch_all_witness :
    mainPromptDispatch (promptUserReturn "") = .abortExit 1 :=
  c9_abort_catch_all "" (by decide) (by decide) (by decide)

/-- C9 counterexample: the operator response " 3" (with a leading space) is
not exactly "1", "2" or "3", yet the process does not terminate — promptUser
trims the answer, so the dispatch takes the continue-anyway branch — refuting
the claim as stated over raw operator responses. -/
theorem c9_whitespace_choice_cex :
    mainPromptDispatch (promptUserReturn " 3") = .continueAnyway ∧
      ¬ (" 3" : String) = "1" ∧ ¬ (" 3" : String) = "2" ∧ ¬ (" 3" : String) = "3" := by
  decide

/-- C10: an attempt whose accumulated streamed output trims to the empty
string fails with exactly "Generated grammar is empty"; that message is
recorded as the attempt's error and is fed verbatim into the next attempt's
previousErrors and instruction payload; the empty text is never returned as
the stage result, and the cache gains no entry with empty output; the loop
proceeds to the next attempt as for any other validation failure. -/
theorem c10_empty_grammar_validation (cfg : CacheCfg) (st : CacheState)
    (oracle : Nat → Except String String) (spec : String) (raw : String)
    (hmiss : getCached cfg st "grammar" (grammarInput spec) = none)
    (h1 : oracle 1 = .ok raw) (hraw : jsTrim raw = "") :
    ((generateGrammar cfg st oracle spec 3).attempts.get? 0).map GenAttempt.outcome =
      some (.error "Generated grammar is empty") ∧
    ((generateGrammar cfg st oracle spec 3).attempts.get? 1).map GenAttempt.prevErrors =
      some ["Generated grammar is empty"] ∧
    ((generateGrammar cfg st oracle spec 3).attempts.get? 1).map GenAttempt.instructions =
      some (grammarInstructions cfg.sample ["Generated grammar is empty"]) ∧
    occursIn "Generated grammar is empty"
      (grammarInstructions cfg.sample ["Generated grammar is empty"]) = true ∧
    ¬ (generateGrammar cfg st oracle spec 3).result = .ok "" ∧
    cacheHasEmptyOut (generateGrammar cfg st oracle spec 3).cacheAfter =
      cacheHasEmptyOut st := by
  have ho1 : attemptOutcome (oracle 1) = .error "Generated grammar is empty" := by
    rw [h1]
    show validateGrammarText raw = _
    simp [validateGrammarText, hraw]
  have hcons := runAttempts_cons cfg oracle spec 3 1 3 [] st ho1 (by omega)
  simp only [List.nil_append, show (3 : Nat) - 1 = 2 from rfl] at hcons
  obtain ⟨tl, res, cst, hhead⟩ :=
    runAttempts_head cfg oracle spec 3 2 2 ["Generated grammar is empty"] st (by omega)
  simp only [generateGrammar, hmiss]
  rw [hcons, hhead]
  refine ⟨rfl, rfl, rfl, occursIn_grammarInstructions (by simp), ?_, ?_⟩
  · rw [hcons] at *
    intro hcon
    have := runAttempts_result_ne_emptyOk cfg oracle spec 3 2 2
      ["Generated grammar is empty"] st
    rw [hhead] at this
    exact this hcon
  · have := runAttempts_cacheEmpty cfg oracle spec 3 2 2 ["Generated grammar is empty"] st
    rw [hhead] at this
    exact this

/-- C10 witness: the theorem applied to an oracle whose first attempt streams
two spaces. -/
theorem c10_empty_grammar_validation_witness :
    ((generateGrammar cfgDefaultEnv emptyCache c10Oracle "calc" 3).attempts.get? 0).map
        GenAttempt.outcome =
      some (.error "Generated grammar is empty") ∧
    ((generateGrammar cfgDefaultEnv emptyCache c10Oracle "calc" 3).attempts.get? 1).map
        GenAttempt.prevErrors =
      some ["Generated grammar is empty"] ∧
    ((generateGrammar cfgDefaultEnv emptyCache c10Oracle "calc" 3).attempts.get? 1).map
        GenAttempt.instructions =
      some (grammarInstructions cfgDefaultEnv.sample ["Generated grammar is empty"]) ∧
    occursIn "Generated grammar is empty"
      (grammarInstructions cfgDefaultEnv.sample ["Generated grammar is empty"]) = true ∧
    ¬ (generateGrammar cfgDefaultEnv emptyCache c10Oracle "calc" 3).result = .ok "" ∧
    cacheHasEmptyOut (generateGrammar cfgDefaultEnv emptyCache c10Oracle "calc" 3).cacheAfter =
      cacheHasEmptyOut emptyCache :=
  c10_empty_grammar_validation cfgDefaultEnv emptyCache c10Oracle "calc" "  "
    (by decide) (by decide) (by decide)
